import Mathlib

/-!
Shallow embedding of the invoice UI of this repository (a Next.js frontend):
the invoice detail page with its sample invoice and approval handler, the
approval modal submit logic, the exception center sample data and kind
vocabulary, plus spec-modelled definitions for the operations the repository
leaves unimplemented (push, derivation classification).
-/

namespace Crafta

/-- An invoice line as laid out in the sample invoice of the invoice detail
page. Monetary quantities are integers in the sample data; confidence is a
rational in [0,1]. -/
structure InvoiceLine where
  line_id : String
  description : String
  quantity : Int
  unit : String
  unit_price : Int
  amount : Int
  source_clause_id : String
  source_event_ids : List String
  explain : String
  agent_reasoning : String
  confidence : ℚ
  is_exception : Bool
  requires_cfo_approval : Bool
deriving DecidableEq, Repr

/-- An invoice draft as laid out in the sample invoice of the invoice detail
page. -/
structure Invoice where
  invoice_id : String
  contract_id : String
  drafted_by : String
  lines : List InvoiceLine
  subtotal : Int
  tax : Int
  total : Int
  status : String
  invoice_date : String
  due_date : String
  explainability : String
  aggregate_confidence : ℚ
  created_at : String
deriving DecidableEq, Repr

/-- The sample invoice detail data of the invoice detail page, field by
field. -/
def sampleInvoice : Invoice :=
  { invoice_id := "inv_20260118_001"
    contract_id := "ctr_20260115_001"
    drafted_by := "agent_v0.1"
    lines :=
      [ { line_id := "l1"
          description := "Consulting hours Dec (10h @ $200)"
          quantity := 10
          unit := "hour"
          unit_price := 200
          amount := 2000
          source_clause_id := "c1"
          source_event_ids := ["we_001"]
          explain := "Derived from timesheet event we_001"
          agent_reasoning := "The contract clause c1 specifies a rate of $200/hour for consulting services. Work event we_001 records 10 hours of consulting on 2025-12-12. Multiplying 10 hours by $200/hour yields $2,000. This aligns with the pre-calculated amount in the work event."
          confidence := 0.93
          is_exception := false
          requires_cfo_approval := false }
      , { line_id := "l2"
          description := "Additional consulting hours (5h @ $200)"
          quantity := 5
          unit := "hour"
          unit_price := 200
          amount := 1000
          source_clause_id := "c1"
          source_event_ids := ["we_002"]
          explain := "Derived from timesheet event we_002"
          agent_reasoning := "The contract clause c1 specifies a rate of $200/hour. Work event we_002 records 5 hours of additional consulting. Calculation: 5 hours × $200/hour = $1,000."
          confidence := 0.91
          is_exception := false
          requires_cfo_approval := false }
      , { line_id := "l3"
          description := "Milestone: Phase 1 Completion"
          quantity := 1
          unit := "fixed"
          unit_price := 12000
          amount := 12000
          source_clause_id := "c2"
          source_event_ids := ["we_003"]
          explain := "Milestone payment triggered by completion event we_003"
          agent_reasoning := "Contract clause c2 specifies a milestone payment of $12,000 upon completion of Phase 1. Work event we_003 indicates Phase 1 acceptance was completed. Manual verification of acceptance is recommended."
          confidence := 0.88
          is_exception := false
          requires_cfo_approval := false }
      ]
    subtotal := 15000
    tax := 0
    total := 15000
    status := "draft"
    invoice_date := "2026-01-18"
    due_date := "2026-02-17"
    explainability := "Invoice derived from contract ctr_20260115_001 with 3 line(s). Used clauses: c1, c2. Linked work events: we_001, we_002, we_003. Aggregate confidence: 91%."
    aggregate_confidence := 0.91
    created_at := "2026-01-18T07:00:00Z" }

/-- The approval handler of the invoice detail page: it spreads the invoice
and overwrites only the status field with the string approved. -/
def handleApprove (inv : Invoice) : Invoice :=
  { inv with status := "approved" }

/-- The invoice detail page renders the Approve button exactly when the
invoice status is draft. -/
def approveOffered (inv : Invoice) : Bool :=
  inv.status == "draft"

/-- The invoice detail page renders the Push to ERP button exactly when the
invoice status is approved (the button has no click handler in the code). -/
def pushOffered (inv : Invoice) : Bool :=
  inv.status == "approved"

/-- Sum of the amounts of a list of invoice lines. -/
def sumAmounts (lines : List InvoiceLine) : Int :=
  (lines.map (·.amount)).sum

/-- Minimum of the confidence scores of a list of invoice lines (1 for the
empty list, since confidences lie in [0,1]). -/
def minLineConfidence (lines : List InvoiceLine) : ℚ :=
  lines.foldr (fun l acc => min l.confidence acc) 1

/-- Arithmetic mean of the confidence scores of a list of invoice lines. -/
def meanLineConfidence (lines : List InvoiceLine) : ℚ :=
  ((lines.map (·.confidence)).sum) / (lines.length : ℚ)

/-- Rounding of a rational to two decimal places. -/
def roundTo2 (q : ℚ) : ℚ :=
  ((round (q * 100) : ℤ) : ℚ) / 100

/-- The payload the approval modal passes to its onApprove callback. -/
structure ApprovalPayload where
  approver_name : String
  approver_email : String
  approval_note : String
  confirm_reviewed : Bool
deriving DecidableEq, Repr

/-- The allLinesReviewed predicate of the approval modal: every line id of
the invoice is in the reviewed set (the set of checked per-line boxes,
embedded as a list of line ids). -/
def allLinesReviewed (inv : Invoice) (reviewedLines : List String) : Bool :=
  inv.lines.all (fun line => reviewedLines.contains line.line_id)

/-- Whether a string is blank: empty after trimming, that is, every one of
its characters is whitespace. The modal tests this as the falsiness of the
trimmed string. -/
def isBlank (s : String) : Bool :=
  s.data.all (fun c => c.isWhitespace)

/-- Whether a string contains the given character; the modal tests the
at-sign this way with the includes method. -/
def strHasChar (s : String) (c : Char) : Bool :=
  s.data.contains c

/-- The handleSubmit logic of the approval modal: validations run in source
order (name, email, per-line review, confirmation box) and each failure
stops with the exact error string the code sets; on success, onApprove
receives the payload with the confirm_reviewed field set to the literal
true. -/
def handleSubmit (inv : Invoice) (approverName approverEmail approvalNote : String)
    (reviewedLines : List String) (confirmReviewed : Bool) :
    Except String ApprovalPayload :=
  if isBlank approverName then
    .error "Please enter your name"
  else if isBlank approverEmail || !(strHasChar approverEmail '@') then
    .error "Please enter a valid email address"
  else if !(allLinesReviewed inv reviewedLines) then
    .error "Please confirm you have reviewed all line items"
  else if !confirmReviewed then
    .error "Please check the confirmation box"
  else
    .ok { approver_name := approverName
          approver_email := approverEmail
          approval_note := approvalNote
          confirm_reviewed := true }

/-- Whether the first list is a leading segment of the second, character by
character. -/
def startsWithChars : List Char → List Char → Bool
  | [], _ => true
  | _ :: _, [] => false
  | a :: as, b :: bs => a == b && startsWithChars as bs

/-- Whether the first list occurs contiguously anywhere within the second. -/
def occursInChars (needle : List Char) : List Char → Bool
  | [] => startsWithChars needle []
  | c :: cs => startsWithChars needle (c :: cs) || occursInChars needle cs

/-- Whether the first string occurs as a substring of the second. -/
def strOccursIn (needle hay : String) : Bool :=
  occursInChars needle.data hay.data

/-- A comment on an exception record of the exception center page. -/
structure ExceptionComment where
  id : String
  author : String
  text : String
  createdAt : String
deriving DecidableEq, Repr

/-- An exception record as laid out in the sample data of the exception
center page; fields absent from a given object literal are embedded as
none. -/
structure ExceptionRecord where
  id : String
  invoiceId : String
  lineId : String
  type : String
  description : String
  amount : Int
  confidence : ℚ
  reason : String
  contractClause : String
  status : String
  createdAt : String
  assignedTo : Option String
  comments : List ExceptionComment
  resolvedAt : Option String
  resolvedBy : Option String
  resolution : Option String
deriving DecidableEq, Repr

/-- First sample exception of the exception center page: a pending
low-confidence exception with no assigned reviewer. -/
def exc_001 : ExceptionRecord :=
  { id := "exc_001"
    invoiceId := "inv_20260117_002"
    lineId := "l3"
    type := "low_confidence"
    description := "Milestone payment - Phase 2 Completion"
    amount := 15000
    confidence := 0.72
    reason := "Confidence 72% below threshold 80%"
    contractClause := "c3"
    status := "pending"
    createdAt := "2026-01-17T10:00:00Z"
    assignedTo := none
    comments := []
    resolvedAt := none
    resolvedBy := none
    resolution := none }

/-- Second sample exception of the exception center page: a pending
cfo_required exception assigned to the CFO approver at confidence 0.89. -/
def exc_002 : ExceptionRecord :=
  { id := "exc_002"
    invoiceId := "inv_20260116_003"
    lineId := "l5"
    type := "cfo_required"
    description := "Revenue recognition - Multi-element arrangement"
    amount := 45000
    confidence := 0.89
    reason := "Rev-rec sensitive item requires CFO approval"
    contractClause := "c7"
    status := "pending"
    createdAt := "2026-01-16T14:30:00Z"
    assignedTo := some "cfo@example.com"
    comments :=
      [ { id := "cmt_001"
          author := "controller@example.com"
          text := "Flagged for CFO review due to multi-element arrangement."
          createdAt := "2026-01-16T15:00:00Z" } ]
    resolvedAt := none
    resolvedBy := none
    resolution := none }

/-- Third sample exception of the exception center page: a resolved
manual_review exception whose line confidence 0.65 is below the 0.80
threshold. -/
def exc_003 : ExceptionRecord :=
  { id := "exc_003"
    invoiceId := "inv_20260115_004"
    lineId := "l2"
    type := "manual_review"
    description := "Rate discrepancy - Consulting hours"
    amount := 2400
    confidence := 0.65
    reason := "Extracted rate ($240/hr) differs from expected ($200/hr)"
    contractClause := "c1"
    status := "resolved"
    createdAt := "2026-01-15T09:00:00Z"
    assignedTo := none
    comments := []
    resolvedAt := some "2026-01-15T11:30:00Z"
    resolvedBy := some "controller@example.com"
    resolution := some "Rate confirmed as $240/hr per amendment dated 2025-11-01" }

/-- The sample exception data array of the exception center page. -/
def exceptions : List ExceptionRecord :=
  [exc_001, exc_002, exc_003]

/-- An entry of the typeConfig lookup: an exception kind key with its badge
label and color. -/
structure TypeConfigEntry where
  key : String
  label : String
  color : String
deriving DecidableEq, Repr

/-- The typeConfig map of the exception center page: the closed vocabulary
of exception kinds the code knows, with their badge labels and colors. -/
def typeConfig : List TypeConfigEntry :=
  [ { key := "low_confidence", label := "Low Confidence", color := "red" }
  , { key := "cfo_required", label := "CFO Required", color := "yellow" }
  , { key := "manual_review", label := "Manual Review", color := "orange" }
  , { key := "missing_data", label := "Missing Data", color := "gray" }
  ]

/-- Error cases of a push to the external Export Gate. -/
inductive PushError where
  | invalidTransition
  | gateRejected
deriving DecidableEq, Repr

/-- Outcome of a push request: the result (an external reference on
success), the invoice status afterwards, and whether the Export Gate was
called at all. -/
structure PushOutcome where
  result : Except PushError String
  newStatus : String
  exportCalled : Bool

/-- Modelled from the spec: pushInvoice is absent from src/ — the invoice
detail page only renders a Push to ERP button when the status is approved,
and the button has no click handler. Per the spec, push succeeds only from
status approved: the Export Gate is called and, on acknowledgement, the
status becomes pushed, while a failed push leaves the invoice approved; a
push requested from any other status fails with InvalidTransitionError,
leaves the status unchanged, and makes no Export Gate call. -/
def pushInvoice (inv : Invoice) (gateAck : Bool) (externalRef : String) : PushOutcome :=
  if inv.status = "approved" then
    if gateAck then
      { result := .ok externalRef, newStatus := "pushed", exportCalled := true }
    else
      { result := .error .gateRejected, newStatus := "approved", exportCalled := true }
  else
    { result := .error .invalidTransition, newStatus := inv.status, exportCalled := false }

/-- Modelled from the spec: the Derivation Engine is absent from src/ (only
UI pages and sample data exist). Per the spec, a work event with zero
matching clauses yields a line flagged is_exception with the missing-data
kind, exactly one match yields a normal line, and multiple matches yield an
exception line of kind manual_review. The kind identifiers follow the
vocabulary of the typeConfig map in the code. The result pairs the
is_exception flag with the exception kind, if any. -/
def classifyMatchCount (n : Nat) : Bool × Option String :=
  if n = 0 then (true, some "missing_data")
  else if n = 1 then (false, none)
  else (true, some "manual_review")

/-- Modelled from the spec: the Approval State Machine is absent from src/.
Per the spec transition table, a freshly derived draft enters status
exception when at least one unresolved exception was flagged, and
pending_review otherwise. -/
def statusAfterDerivation (anyException : Bool) : String :=
  if anyException then "exception" else "pending_review"

/-- The invoice states reachable in the invoice detail page: the page
initialises its state with the sample invoice, and the only mutation in the
code is the approval handler. -/
inductive DetailReachable : Invoice → Prop where
  | init : DetailReachable sampleInvoice
  | approve {inv : Invoice} : DetailReachable inv → DetailReachable (handleApprove inv)

/-- Claim C1 (counterexample): the sample invoice is in status draft, the
page offers the approve action there, and approving succeeds — the status
changes to approved with no InvalidTransitionError — contradicting the
claim that an approve requested from draft fails and leaves the status
unchanged. -/
theorem approve_from_draft_succeeds :
    sampleInvoice.status = "draft"
      ∧ approveOffered sampleInvoice = true
      ∧ (handleApprove sampleInvoice).status = "approved"
      ∧ (handleApprove sampleInvoice).status ≠ sampleInvoice.status :=
  ⟨rfl, rfl, rfl, by decide⟩

/-- Claim C1 (amended): the invoice detail page offers the approve action
only when the status is draft — from any other status, pending_review
included, no approve is offered — and the approval handler, once invoked,
succeeds unconditionally, setting the status to approved; no status
precondition is checked and no InvalidTransitionError exists in the code. -/
theorem approve_only_offered_in_draft (inv : Invoice) (h : inv.status ≠ "draft") :
    approveOffered inv = false ∧ (handleApprove inv).status = "approved" := by
  constructor
  · rw [approveOffered, beq_eq_false_iff_ne]
    exact h
  · rfl

/-- Claim C1 (witness): instantiating at the sample invoice moved to status
pending_review. -/
theorem approve_only_offered_in_draft_witness :
    approveOffered { sampleInvoice with status := "pending_review" } = false
      ∧ (handleApprove { sampleInvoice with status := "pending_review" }).status
          = "approved" :=
  approve_only_offered_in_draft { sampleInvoice with status := "pending_review" } (by decide)

/-- Claim C2: the sample invoice stores aggregate confidence 0.91 although
the minimum of its line confidences (0.93, 0.91, 0.88) is 0.88; the stored
value is the arithmetic mean of the line confidences rounded to two decimal
places — exactly the average the spec forbids. -/
theorem aggregate_confidence_is_rounded_average_not_min :
    minLineConfidence sampleInvoice.lines = 0.88
      ∧ sampleInvoice.aggregate_confidence = 0.91
      ∧ sampleInvoice.aggregate_confidence ≠ minLineConfidence sampleInvoice.lines
      ∧ sampleInvoice.aggregate_confidence = roundTo2 (meanLineConfidence sampleInvoice.lines) := by
  refine ⟨?_, rfl, ?_, ?_⟩
  · norm_num [minLineConfidence, sampleInvoice, min_def]
  · norm_num [minLineConfidence, sampleInvoice, min_def]
  · rw [roundTo2, meanLineConfidence]
    norm_num [sampleInvoice]
    rw [show round ((272:ℚ)/3) = 91 by rw [round_eq, Int.floor_eq_iff]; norm_num]
    norm_num

/-- Claim C3: in every invoice state reachable in the invoice detail page —
the initial sample invoice and anything the approval handler produces — the
total equals the sum of the line amounts. -/
theorem total_eq_sum_of_line_amounts_reachable (inv : Invoice)
    (h : DetailReachable inv) : inv.total = sumAmounts inv.lines := by
  induction h with
  | init => decide
  | approve _ ih => simpa [handleApprove, sumAmounts] using ih

/-- Claim C3 (witness): instantiating at the initial sample invoice. -/
theorem total_eq_sum_witness :
    sampleInvoice.total = sumAmounts sampleInvoice.lines :=
  total_eq_sum_of_line_amounts_reachable sampleInvoice DetailReachable.init

/-- Claim C4: a push requested from any status other than approved fails
with InvalidTransitionError, leaves the status unchanged, and makes no
Export Gate call — and the push button is not even offered — while a push
result can only be a success when the status was approved. -/
theorem push_gate_requires_approved (inv : Invoice) (gateAck : Bool) (externalRef : String) :
    (inv.status ≠ "approved" →
        pushInvoice inv gateAck externalRef
            = { result := .error .invalidTransition, newStatus := inv.status,
                exportCalled := false }
          ∧ pushOffered inv = false)
      ∧ (∀ r, (pushInvoice inv gateAck externalRef).result = .ok r →
          inv.status = "approved") := by
  constructor
  · intro h
    constructor
    · rw [pushInvoice, if_neg h]
    · rw [pushOffered, beq_eq_false_iff_ne]
      exact h
  · intro r hr
    by_cases h : inv.status = "approved"
    · exact h
    · rw [pushInvoice, if_neg h] at hr
      cases hr

/-- Claim C4 (witness): pushing the sample invoice, which is in status
draft, fails with InvalidTransitionError, leaves the status draft, and does
not call the Export Gate. -/
theorem push_gate_witness :
    (pushInvoice sampleInvoice true "QB-20260110-001"
        = { result := .error .invalidTransition, newStatus := "draft",
            exportCalled := false })
      ∧ pushOffered sampleInvoice = false :=
  (push_gate_requires_approved sampleInvoice true "QB-20260110-001").1 (by decide)

/-- Claim C5 (counterexample): submitting an approval of the sample invoice
with only lines l1 and l3 reviewed is rejected, but with the fixed message
that names no line id — the id l2 of the unreviewed line does not occur in
it. -/
theorem unreviewed_lines_error_lacks_ids :
    handleSubmit sampleInvoice "Jane Doe" "jane@example.com" "" ["l1", "l3"] true
        = .error "Please confirm you have reviewed all line items"
      ∧ allLinesReviewed sampleInvoice ["l1", "l3"] = false
      ∧ strOccursIn "l2" "Please confirm you have reviewed all line items" = false :=
  ⟨rfl, rfl, by decide⟩

/-- Claim C5 (amended): every approval attempt with a non-blank name and a
valid email but with not all lines reviewed is rejected with the fixed
validation error message about reviewing all line items; the message does
not name the unreviewed line ids. -/
theorem unreviewed_lines_rejected_with_generic_message
    (inv : Invoice) (name email note : String) (reviewed : List String) (confirm : Bool)
    (h1 : isBlank name = false) (h2 : isBlank email = false)
    (h3 : strHasChar email '@' = true)
    (h4 : allLinesReviewed inv reviewed = false) :
    handleSubmit inv name email note reviewed confirm
      = .error "Please confirm you have reviewed all line items" := by
  rw [handleSubmit]
  simp [h1, h2, h3, h4]

/-- Claim C5 (witness): instantiating at the sample invoice with only lines
l1 and l3 reviewed and the confirmation box unchecked. -/
theorem unreviewed_lines_witness :
    handleSubmit sampleInvoice "Jane Doe" "jane@example.com" "" ["l1", "l3"] false
      = .error "Please confirm you have reviewed all line items" :=
  unreviewed_lines_rejected_with_generic_message sampleInvoice "Jane Doe" "jane@example.com" ""
    ["l1", "l3"] false (by decide) (by decide) (by decide) (by decide)

/-- Claim C6 (counterexample): the pending low-confidence sample exception
has no assigned reviewer (assignedTo is null, not the Controller), and the
sample exception with confidence 0.65 — below the 0.80 threshold — has kind
manual_review, not low_confidence. -/
theorem low_confidence_routing_counterexample :
    exc_001 ∈ exceptions ∧ exc_001.type = "low_confidence" ∧ exc_001.assignedTo = none
      ∧ exc_003 ∈ exceptions ∧ exc_003.confidence < 0.80
      ∧ exc_003.type ≠ "low_confidence" :=
  ⟨by simp [exceptions], rfl, rfl, by simp [exceptions], by norm_num [exc_003], by decide⟩

/-- Claim C6 (amended): across the full sample exception data, the
low_confidence exception has confidence below 0.80 and no assigned
reviewer; the cfo_required exception is assigned to the designated CFO
approver even though its confidence 0.89 is above the threshold; and a line
below the threshold may instead carry kind manual_review set at derivation,
resolved by the controller. -/
theorem exception_routing_in_sample_data :
    exceptions = [exc_001, exc_002, exc_003]
      ∧ (exc_001.type = "low_confidence" ∧ exc_001.confidence < 0.80
          ∧ exc_001.assignedTo = none)
      ∧ (exc_002.type = "cfo_required" ∧ exc_002.assignedTo = some "cfo@example.com"
          ∧ 0.80 ≤ exc_002.confidence)
      ∧ (exc_003.type = "manual_review" ∧ exc_003.confidence < 0.80
          ∧ exc_003.resolvedBy = some "controller@example.com") :=
  ⟨rfl, ⟨rfl, by norm_num [exc_001], rfl⟩, ⟨rfl, rfl, by norm_num [exc_002]⟩,
    rfl, by norm_num [exc_003], rfl⟩

/-- Claim C7 (counterexample): the exception-kind vocabulary of the code
has no kind with the value data-missing; the missing-data kind is named
missing_data and labelled Missing Data. -/
theorem data_missing_kind_not_in_type_config :
    ((typeConfig.map TypeConfigEntry.key).contains "data-missing") = false
      ∧ ((typeConfig.map TypeConfigEntry.key).contains "missing_data") = true
      ∧ ((typeConfig.filter (fun e => e.key == "missing_data")).map TypeConfigEntry.label)
          = ["Missing Data"] :=
  ⟨by decide, by decide, by decide⟩

/-- Claim C7 (amended): a work event with zero matching clauses yields a
line flagged as an exception whose kind is missing_data — the code's name
for the missing-data kind — and an invoice holding an exception line enters
status exception. -/
theorem zero_match_yields_missing_data_exception :
    classifyMatchCount 0 = (true, some "missing_data")
      ∧ statusAfterDerivation true = "exception"
      ∧ ((typeConfig.map TypeConfigEntry.key).contains "missing_data") = true :=
  ⟨rfl, rfl, by decide⟩

/-- Claim C8: every time-and-materials sample line (unit hour) has amount
equal to quantity times unit price and is no exception, every fixed
milestone sample line has amount equal to the clause fixed amount (the unit
price, whatever the quantity) and is no exception; in particular the first
line — 10 hours at the 200 dollar T&M rate — has amount 2000 and is no
exception. -/
theorem single_match_amount_formula :
    (sampleInvoice.lines.all fun l =>
        ((l.unit != "hour") || (decide (l.amount = l.quantity * l.unit_price) && !l.is_exception))
          && ((l.unit != "fixed") || (decide (l.amount = l.unit_price) && !l.is_exception))) = true
      ∧ (sampleInvoice.lines.head?.map
          (fun l => (l.quantity, l.unit_price, l.amount, l.is_exception)))
        = some (10, 200, 2000, false) :=
  ⟨by decide, by decide⟩

/-- Claim C9: whenever the approval modal submit succeeds — that is, the
onApprove callback receives a payload — the approver name is non-empty, the
approver email contains an at-sign, every line id of the invoice is in the
reviewed set, the confirmation box is checked, and the emitted payload has
confirm_reviewed equal to true. -/
theorem approval_payload_gating (inv : Invoice) (name email note : String)
    (reviewed : List String) (confirm : Bool) (p : ApprovalPayload)
    (h : handleSubmit inv name email note reviewed confirm = .ok p) :
    name ≠ "" ∧ strHasChar email '@' = true
      ∧ (∀ line ∈ inv.lines, reviewed.contains line.line_id = true)
      ∧ confirm = true ∧ p.confirm_reviewed = true := by
  rw [handleSubmit] at h
  split at h
  · cases h
  next hname =>
  split at h
  · cases h
  next hemail =>
  split at h
  · cases h
  next hrev =>
  split at h
  · cases h
  next hconf =>
  injection h with hp
  subst hp
  simp only [Bool.or_eq_true, Bool.not_eq_true', not_or, Bool.not_eq_false] at hname hemail hrev hconf
  refine ⟨?_, hemail.2, ?_, hconf, rfl⟩
  · intro hn
    subst hn
    exact absurd (by decide : isBlank "" = true) (by simp [hname])
  · have hall := hrev
    rw [allLinesReviewed, List.all_eq_true] at hall
    exact hall

/-- Claim C9 (witness): instantiating at the sample invoice with a full
review set, a valid approver, and the confirmation box checked, where the
submit succeeds. -/
theorem approval_payload_gating_witness :
    ("Jane Doe" : String) ≠ "" ∧ strHasChar "jane@example.com" '@' = true
      ∧ (∀ line ∈ sampleInvoice.lines,
          ((["l1", "l2", "l3"] : List String).contains line.line_id) = true)
      ∧ (true : Bool) = true
      ∧ ({ approver_name := "Jane Doe", approver_email := "jane@example.com",
            approval_note := "", confirm_reviewed := true } : ApprovalPayload).confirm_reviewed
          = true :=
  approval_payload_gating sampleInvoice "Jane Doe" "jane@example.com" "" ["l1", "l2", "l3"] true
    { approver_name := "Jane Doe", approver_email := "jane@example.com",
      approval_note := "", confirm_reviewed := true } rfl

/-- Claim C10: the approval handler changes only the status field — to
approved — and leaves every other field of the invoice (ids, actor, lines,
subtotal, tax, total, dates, explainability, aggregate confidence, creation
time) unchanged. -/
theorem handle_approve_frame (inv : Invoice) :
    (handleApprove inv).status = "approved"
      ∧ (handleApprove inv).invoice_id = inv.invoice_id
      ∧ (handleApprove inv).contract_id = inv.contract_id
      ∧ (handleApprove inv).drafted_by = inv.drafted_by
      ∧ (handleApprove inv).lines = inv.lines
      ∧ (handleApprove inv).subtotal = inv.subtotal
      ∧ (handleApprove inv).tax = inv.tax
      ∧ (handleApprove inv).total = inv.total
      ∧ (handleApprove inv).invoice_date = inv.invoice_date
      ∧ (handleApprove inv).due_date = inv.due_date
      ∧ (handleApprove inv).explainability = inv.explainability
      ∧ (handleApprove inv).aggregate_confidence = inv.aggregate_confidence
      ∧ (handleApprove inv).created_at = inv.created_at :=
  ⟨rfl, rfl, rfl, rfl, rfl, rfl, rfl, rfl, rfl, rfl, rfl, rfl, rfl⟩

end Crafta
